import Mathlib

/-!
Turing Test client: the session state machine of `src/App.js`

A shallow embedding of the React component `App`: its twelve `useState`
cells form `State`; the browser resources the component drives (running
`setInterval` handles, the socket's registered listeners, the requests
emitted on the socket) form the rest of `World`.

The inbound handlers are created once, inside `useEffect(..., [])`, so the
free variables `timerInterval` and `watchingGame` they read are the values
of the first render.  Those values are passed to the handlers as a
`Captured` record.  The handlers `handleRoleSelection`, `handleNewGame`,
`handleSendMessage` and `handleMakeGuess` are re-created on every render and
read the current state.
-/

namespace TuringTest

/-! ## Data model -/

/-- One chat entry `{ sender, text }`. -/
structure Message where
  sender : String
  text : String
deriving DecidableEq, Repr

/-- The twelve `useState` cells of `App` (lines 12-23). -/
structure State where
  role : Option String
  sessionId : Option String
  messages : List Message
  inputMessage : String
  status : String
  chatEnded : Bool
  gameReason : Option String
  guessResult : Option String
  timeLeft : Int
  timerInterval : Option Nat
  watchingGame : Bool
  watchingSessionId : Option String
deriving DecidableEq, Repr

/-- The initial values given to `useState`. -/
def initialState : State :=
  { role := none
    sessionId := none
    messages := []
    inputMessage := ""
    status := "Select your role to begin."
    chatEnded := false
    gameReason := none
    guessResult := none
    timeLeft := 90
    timerInterval := none
    watchingGame := false
    watchingSessionId := none }

/-- Outbound requests, `socket.emit(name, payload)`. -/
inductive Emit where
  | joinLobby (role : String)
  | newGame (role : String)
  | sendMessage (sessionId : Option String) (message : String)
  | makeGuess (sessionId : Option String) (guess : String)
deriving DecidableEq, Repr

/-- The seven inbound event channels. -/
inductive Channel where
  | waitingForPartner
  | matchFound
  | newMessage
  | gameEnd
  | watchingGame
  | gameComplete
  | error
deriving DecidableEq, Repr

/-- Payload of `matchFound`. -/
structure MatchFoundData where
  sessionId : String
  role : String
  message : String
  aiPersona : Option String
deriving DecidableEq, Repr

/-- Payload of `gameEnd`. -/
structure GameEndData where
  reason : String
  result : Option String
deriving DecidableEq, Repr

/-- Payload of `watchingGame`. -/
structure WatchingGameData where
  sessionId : String
  message : String
deriving DecidableEq, Repr

/-- Payload of `gameComplete`. -/
structure GameCompleteData where
  message : String
deriving DecidableEq, Repr

/-- An inbound transport event with its payload. -/
inductive Inbound where
  | waitingForPartner (message : String)
  | matchFound (data : MatchFoundData)
  | newMessage (message : Message)
  | gameEnd (data : GameEndData)
  | watchingGame (data : WatchingGameData)
  | gameComplete (data : GameCompleteData)
  | error (message : String)
deriving DecidableEq, Repr

/-- The component state together with the resources it drives. -/
structure World where
  st : State
  /-- Handles of the intervals that are running (set and not yet cleared). -/
  intervals : List Nat
  /-- The handle the next `setInterval` call returns. -/
  nextHandle : Nat
  /-- Requests emitted so far, oldest first. -/
  emitted : List Emit
  /-- Channels that have a handler registered on the socket. -/
  listeners : List Channel
deriving DecidableEq, Repr

/-- The variables the effect closure reads from the render that created it. -/
structure Captured where
  timerInterval : Option Nat
  watchingGame : Bool
deriving DecidableEq, Repr

/-! ## JavaScript primitives -/

/-- Truthiness of a string-or-null value: `null` and `''` are falsy. -/
def jsTruthyStr : Option String → Bool
  | none => false
  | some s => decide (s ≠ "")

/-- Truthiness of a number-or-null value: `null` and `0` are falsy. -/
def jsTruthyNum : Option Nat → Bool
  | none => false
  | some n => decide (n ≠ 0)

/-- Code points `String.prototype.trim` strips (WhiteSpace and LineTerminator). -/
def jsWhiteSpaceCodes : List Nat :=
  [0x09, 0x0A, 0x0B, 0x0C, 0x0D, 0x20, 0xA0, 0x1680,
   0x2000, 0x2001, 0x2002, 0x2003, 0x2004, 0x2005, 0x2006, 0x2007,
   0x2008, 0x2009, 0x200A, 0x2028, 0x2029, 0x202F, 0x205F, 0x3000, 0xFEFF]

/-- Whether `trim` treats the character as white space. -/
def jsIsWhiteSpace (c : Char) : Bool :=
  decide (c.toNat ∈ jsWhiteSpaceCodes)

/-- The function `String.prototype.trim`, on the list of characters. -/
def jsTrimChars (cs : List Char) : List Char :=
  ((cs.dropWhile jsIsWhiteSpace).reverse.dropWhile jsIsWhiteSpace).reverse

/-- The function `String.prototype.trim`. -/
def jsTrim (s : String) : String :=
  String.mk (jsTrimChars s.data)

/-- The call `clearInterval(h)`: the interval with that handle stops. -/
def clearInterval (h : Option Nat) (w : World) : World :=
  match h with
  | none => w
  | some i => { w with intervals := w.intervals.filter (fun j => decide (j ≠ i)) }

/-- The call `socket.emit`. -/
def emit (e : Emit) (w : World) : World :=
  { w with emitted := w.emitted ++ [e] }

/-- The text seeded into the log when the match carries a persona. -/
def personaText (p : String) : String :=
  "You are matched with an AI. Your persona is: \"" ++ p ++ "\""

/-! ## Inbound handlers (lines 26-95) -/

/-- Handler of `waitingForPartner`. -/
def onWaitingForPartner (message : String) (w : World) : World :=
  { w with st := { w.st with status := message } }

/-- Handler of `matchFound`: it sets the session, starts a new interval and
seeds the log.  It calls no `clearInterval`. -/
def onMatchFound (data : MatchFoundData) (w : World) : World :=
  let interval := w.nextHandle
  { w with
    st := { w.st with
      sessionId := some data.sessionId
      status := data.message
      role := some data.role
      chatEnded := false
      gameReason := none
      guessResult := none
      timeLeft := 90
      timerInterval := some interval
      messages :=
        if jsTruthyStr data.aiPersona then
          [{ sender := "system", text := personaText (data.aiPersona.getD "") }]
        else
          [{ sender := "system", text := data.message }] }
    intervals := w.intervals ++ [interval]
    nextHandle := w.nextHandle + 1 }

/-- Handler of `newMessage`. -/
def onNewMessage (message : Message) (w : World) : World :=
  { w with st := { w.st with messages := w.st.messages ++ [message] } }

/-- Handler of `gameEnd`; `timerInterval` is the captured variable. -/
def onGameEnd (cap : Captured) (data : GameEndData) (w : World) : World :=
  let w1 : World :=
    { w with st := { w.st with chatEnded := true, gameReason := some data.reason } }
  let w2 : World :=
    if jsTruthyNum cap.timerInterval then
      let c := clearInterval cap.timerInterval w1
      { c with st := { c.st with timerInterval := none } }
    else w1
  let w3 : World :=
    if data.reason = "guess" then
      { w2 with st := { w2.st with guessResult := data.result } }
    else w2
  { w3 with st := { w3.st with status := "Game over!" } }

/-- Handler of `watchingGame`. -/
def onWatchingGame (data : WatchingGameData) (w : World) : World :=
  { w with st := { w.st with
      watchingGame := true
      watchingSessionId := some data.sessionId
      status := data.message
      messages := [{ sender := "system", text := data.message }] } }

/-- Handler of `gameComplete`; `watchingGame` is the captured variable. -/
def onGameComplete (cap : Captured) (data : GameCompleteData) (w : World) : World :=
  if cap.watchingGame then
    { w with st := { w.st with
        status := data.message
        messages := w.st.messages ++ [{ sender := "system", text := data.message }] } }
  else w

/-- Handler of `error`. -/
def onError (message : String) (w : World) : World :=
  { w with st := { w.st with status := message } }

/-- The interval callback of the interval with handle `i` (lines 40-48). -/
def intervalCallback (i : Nat) (w : World) : World :=
  if w.st.timeLeft ≤ 1 then
    let c := clearInterval (some i) w
    { c with st := { c.st with timeLeft := 0 } }
  else
    { w with st := { w.st with timeLeft := w.st.timeLeft - 1 } }

/-! ## The effect: registration and cleanup (lines 25-106) -/

/-- The seven channels, in registration order. -/
def allChannels : List Channel :=
  [.waitingForPartner, .matchFound, .newMessage, .gameEnd,
   .watchingGame, .gameComplete, .error]

/-- The values of `timerInterval` and `watchingGame` in the first render,
which the effect closure keeps. -/
def mountCaptured : Captured :=
  { timerInterval := initialState.timerInterval
    watchingGame := initialState.watchingGame }

/-- The world right after the component has mounted and its effect has run.
Browser interval handles are positive, so the first one is 1. -/
def mount : World :=
  { st := initialState
    intervals := []
    nextHandle := 1
    emitted := []
    listeners := allChannels }

/-- The call `socket.off(name)`. -/
def socketOff (c : Channel) (w : World) : World :=
  { w with listeners := w.listeners.filter (fun d => decide (d ≠ c)) }

/-- The function the effect returns (lines 97-105). -/
def cleanup (w : World) : World :=
  socketOff .error (socketOff .gameComplete (socketOff .watchingGame
    (socketOff .gameEnd (socketOff .newMessage (socketOff .matchFound
      (socketOff .waitingForPartner w))))))

/-- The channel an inbound event arrives on. -/
def Inbound.channel : Inbound → Channel
  | .waitingForPartner _ => .waitingForPartner
  | .matchFound _ => .matchFound
  | .newMessage _ => .newMessage
  | .gameEnd _ => .gameEnd
  | .watchingGame _ => .watchingGame
  | .gameComplete _ => .gameComplete
  | .error _ => .error

/-- The handler registered for an inbound event, with captured variables `cap`. -/
def handle (cap : Captured) : Inbound → World → World
  | .waitingForPartner m => onWaitingForPartner m
  | .matchFound d => onMatchFound d
  | .newMessage m => onNewMessage m
  | .gameEnd d => onGameEnd cap d
  | .watchingGame d => onWatchingGame d
  | .gameComplete d => onGameComplete cap d
  | .error m => onError m

/-- The socket delivers an inbound event: the handler registered at mount
runs when the channel still has a listener. -/
def deliver (e : Inbound) (w : World) : World :=
  if e.channel ∈ w.listeners then handle mountCaptured e w else w

/-- An interval fires: its callback runs when the interval is still running. -/
def tick (i : Nat) (w : World) : World :=
  if i ∈ w.intervals then intervalCallback i w else w

/-- One second passes: every interval running at its start fires once. -/
def elapseSecond (w : World) : World :=
  w.intervals.foldl (fun acc i => tick i acc) w

/-! ## User actions (lines 108-147) -/

/-- The function `handleRoleSelection`. -/
def handleRoleSelection (selectedRole : String) (w : World) : World :=
  emit (.joinLobby selectedRole)
    { w with st := { w.st with role := some selectedRole, status := "Joining the lobby..." } }

/-- The function `handleNewGame`; it reads the current `timerInterval`. -/
def handleNewGame (selectedRole : String) (w : World) : World :=
  let w1 : World :=
    { w with st := { w.st with
        role := some selectedRole
        sessionId := none
        messages := []
        chatEnded := false
        watchingGame := false
        watchingSessionId := none
        status := "Joining the lobby..." } }
  let w2 : World :=
    if jsTruthyNum w.st.timerInterval then
      let c := clearInterval w.st.timerInterval w1
      { c with st := { c.st with timerInterval := none } }
    else w1
  emit (.newGame selectedRole) { w2 with st := { w2.st with timeLeft := 90 } }

/-- The function `handleSendMessage`; the guard is
`inputMessage.trim() && sessionId && !chatEnded`. -/
def handleSendMessage (w : World) : World :=
  if jsTruthyStr (some (jsTrim w.st.inputMessage)) && jsTruthyStr w.st.sessionId
      && !w.st.chatEnded then
    let newMessage : Message := { sender := "you", text := w.st.inputMessage }
    emit (.sendMessage w.st.sessionId w.st.inputMessage)
      { w with st := { w.st with
          messages := w.st.messages ++ [newMessage]
          inputMessage := "" } }
  else w

/-- The function `handleMakeGuess`; the guard is `sessionId`. -/
def handleMakeGuess (guess : String) (w : World) : World :=
  if jsTruthyStr w.st.sessionId then emit (.makeGuess w.st.sessionId guess) w else w

/-- The `onChange` of the input box: `setInputMessage(e.target.value)`. -/
def handleInputChange (value : String) (w : World) : World :=
  { w with st := { w.st with inputMessage := value } }

/-! ## Rendering (lines 149-262) -/

/-- The method `String.prototype.includes`. -/
def jsIncludes (s t : String) : Bool :=
  decide (t.data <:+: s.data)

/-- What the chat window shows. -/
structure ChatWindow where
  /-- The remaining time, shown while the chat has not ended. -/
  timer : Option Int
  /-- The class `timer-warning`. -/
  timerWarning : Bool
  messages : List Message
  /-- The fixed time-is-up paragraph. -/
  timeoutMessage : Bool
  /-- The paragraph `end-message` (reason `readyToGuess`) and its text. -/
  endMessage : Option (Option String)
  /-- The paragraph `result-message` (reason `guess`): its text and whether
  it has the class `incorrect`. -/
  resultMessage : Option (Option String × Bool)
  /-- The two new-game buttons. -/
  replayButtons : Bool
  /-- The message form. -/
  sendForm : Bool
  /-- The two guess buttons. -/
  guessButtons : Bool
deriving DecidableEq, Repr

/-- The four screens of `renderContent`. -/
inductive View where
  | roleSelection
  | watching (messages : List Message)
  | waiting (status : String)
  | chat (c : ChatWindow)
deriving DecidableEq, Repr

/-- The chat window, the last branch of `renderContent` (lines 196-260). -/
def renderChat (s : State) : ChatWindow :=
  { timer := if !s.chatEnded then some s.timeLeft else none
    timerWarning := !s.chatEnded && decide (s.timeLeft ≤ 10)
    messages := s.messages
    timeoutMessage := s.chatEnded && decide (s.gameReason = some "timeout")
    endMessage :=
      if s.chatEnded && decide (s.gameReason = some "readyToGuess") then some s.guessResult
      else none
    resultMessage :=
      if s.chatEnded && decide (s.gameReason = some "guess") then
        some (s.guessResult,
          jsTruthyStr s.guessResult && jsIncludes (s.guessResult.getD "") "incorrectly")
      else none
    replayButtons :=
      s.chatEnded &&
        (decide (s.gameReason = some "timeout") || decide (s.gameReason = some "guess"))
    sendForm := !s.chatEnded
    guessButtons :=
      s.chatEnded && decide (s.role = some "tester")
        && decide (s.gameReason = some "readyToGuess") }

/-- The function `renderContent`. -/
def renderContent (s : State) : View :=
  if !jsTruthyStr s.role then .roleSelection
  else if s.watchingGame then .watching s.messages
  else if !jsTruthyStr s.sessionId then .waiting s.status
  else .chat (renderChat s)

/-- Whether the two guess buttons are on screen.  They belong to the chat
window, the last branch of `renderContent`, under the condition of line 253;
the other three screens have no guess button. -/
def guessButtonsShown (s : State) : Bool :=
  match renderContent s with
  | .chat c => c.guessButtons
  | _ => false

/-- The guess action: a click on a guess button (lines 255-256), whose
`onClick` is the only caller of `handleMakeGuess`.  Without a rendered
button there is nothing to click. -/
def clickGuess (guess : String) (w : World) : World :=
  if guessButtonsShown w.st then handleMakeGuess guess w else w

/-! ## Runs of the machine -/

/-- A local user action. -/
inductive Action where
  | selectRole (role : String)
  | newGame (role : String)
  | input (value : String)
  | send
  | guess (guess : String)
deriving DecidableEq, Repr

/-- Anything that can happen to the mounted component. -/
inductive Step where
  | inbound (e : Inbound)
  | action (a : Action)
  | tick (i : Nat)
deriving DecidableEq, Repr

/-- The handler a user action calls. -/
def act : Action → World → World
  | .selectRole r => handleRoleSelection r
  | .newGame r => handleNewGame r
  | .input v => handleInputChange v
  | .send => handleSendMessage
  | .guess g => handleMakeGuess g

/-- One transition of the machine. -/
def step : Step → World → World
  | .inbound e => deliver e
  | .action a => act a
  | .tick i => tick i

/-- The steps of a list, first to last. -/
def run (steps : List Step) (w : World) : World :=
  steps.foldl (fun acc s => step s acc) w

/-- The worlds that some run from the mounted component reaches. -/
def Reachable (w : World) : Prop :=
  ∃ steps : List Step, run steps mount = w

/-! ## Sample runs -/

/-- A tester is matched for session `s1`. -/
def matchedSteps : List Step :=
  [.action (.selectRole "tester"),
   .inbound (.matchFound
     { sessionId := "s1", role := "tester", message := "Match found", aiPersona := none })]

/-- The match, then the server ends the game by timeout. -/
def timeoutSteps : List Step :=
  matchedSteps ++ [.inbound (.gameEnd { reason := "timeout", result := none })]

/-- A queued player gets the watching notice. -/
def watchingSteps : List Step :=
  [.action (.selectRole "tested person"),
   .inbound (.watchingGame { sessionId := "g7", message := "You are in the queue" })]

/-- The watching notice, then a match for the queued player. -/
def watchThenMatchSteps : List Step :=
  watchingSteps ++
    [.inbound (.matchFound
      { sessionId := "s2", role := "tested person", message := "Match found",
        aiPersona := none })]

/-- The watching notice, then the notice that the watched game is over. -/
def watchThenCompleteSteps : List Step :=
  watchingSteps ++ [.inbound (.gameComplete { message := "The game is over" })]

/-- A tested person is matched for session `s3`; the chat is running. -/
def testedChatSteps : List Step :=
  [.action (.selectRole "tested person"),
   .inbound (.matchFound
     { sessionId := "s3", role := "tested person", message := "Match found",
       aiPersona := none })]

/-- The match, then the server asks the tester for the guess. -/
def readyToGuessSteps : List Step :=
  matchedSteps ++
    [.inbound (.gameEnd { reason := "readyToGuess", result := some "Time is up. Make your guess." })]

/-- The match, then the server reports the outcome of the guess. -/
def guessedSteps : List Step :=
  matchedSteps ++
    [.inbound (.gameEnd { reason := "guess", result := some "You guessed incorrectly!" })]

/-- A second `matchFound` arrives while the first countdown is running. -/
def doubleMatchSteps : List Step :=
  matchedSteps ++
    [.inbound (.matchFound
      { sessionId := "s4", role := "tester", message := "Match found", aiPersona := none })]

/-- The tester has typed `hi` in the running chat. -/
def typedSteps : List Step :=
  matchedSteps ++ [.action (.input "hi")]

/-- The tester has typed only blanks in the running chat. -/
def blankTypedSteps : List Step :=
  matchedSteps ++ [.action (.input "  ")]

/-- The payload of the match of `matchedSteps`, which has no persona. -/
def plainMatch : MatchFoundData :=
  { sessionId := "s1", role := "tester", message := "Match found", aiPersona := none }

/-- A match payload that discloses a persona. -/
def pirateMatch : MatchFoundData :=
  { sessionId := "s5", role := "tested person", message := "Match found",
    aiPersona := some "a grumpy pirate" }

/-- The chat messages that the `newMessage` events of a list of steps carry,
in the order of delivery. -/
def deliveredMessages : List Step → List Message
  | [] => []
  | .inbound (.newMessage m) :: rest => m :: deliveredMessages rest
  | _ :: rest => deliveredMessages rest

/-- The steps that reset the log or add a local entry to it: `matchFound`,
`watchingGame`, the new-game action and the send action. -/
def touchesLog : Step → Bool
  | .inbound (.matchFound _) => true
  | .inbound (.watchingGame _) => true
  | .action (.newGame _) => true
  | .action .send => true
  | _ => false

/-- The steps that reset the log: `matchFound`, `watchingGame` and the
new-game action. -/
def resetsLog : Step → Bool
  | .inbound (.matchFound _) => true
  | .inbound (.watchingGame _) => true
  | .action (.newGame _) => true
  | _ => false

/-- In the running chat the tester types `hi` and sends it, then one chat
message arrives. -/
def sendThenMessageSteps : List Step :=
  [.action (.input "hi"), .action .send,
   .inbound (.newMessage { sender := "partner", text := "hello" })]

/-- Three chat messages arrive, two of them equal, with an error notice, a
tick, the end of the game and a guess between them. -/
def chatSteps : List Step :=
  [.inbound (.newMessage { sender := "partner", text := "hello" }),
   .inbound (.error "slow network"),
   .inbound (.newMessage { sender := "partner", text := "hello" }),
   .tick 1,
   .inbound (.gameEnd { reason := "readyToGuess", result := none }),
   .inbound (.newMessage { sender := "partner", text := "bye" }),
   .action (.guess "AI")]

/-- A match whose session id is the empty string, then the request for the
guess. -/
def emptyIdSteps : List Step :=
  [.action (.selectRole "tester"),
   .inbound (.matchFound
     { sessionId := "", role := "tester", message := "Match found", aiPersona := none }),
   .inbound (.gameEnd { reason := "readyToGuess", result := none })]

/-- The log entry that `matchFound` seeds: the persona disclosure when the
payload has a truthy `aiPersona`, the server message otherwise. -/
def seedMessage (d : MatchFoundData) : Message :=
  if jsTruthyStr d.aiPersona then
    { sender := "system", text := personaText (d.aiPersona.getD "") }
  else
    { sender := "system", text := d.message }

/-- The interval with handle `i` fires `t` times in a row. -/
def tickSteps (i t : Nat) : List Step :=
  List.replicate t (Step.tick i)

/-- The end-of-game payload of Scenario E. -/
def incorrectGuessEnd : GameEndData :=
  { reason := "guess", result := some "You guessed incorrectly!" }

/-- The match of Scenario A, then the component is torn down. -/
def teardownWorld : World :=
  cleanup (run matchedSteps mount)

/-- The steps in which the given intervals fire, one after the other. -/
def firingSteps (handles : List Nat) : List Step :=
  handles.map Step.tick

/-- Two matches in a row and the end of the game, then 50 seconds in which
both intervals, neither of them stopped, may fire. -/
def leakySteps : List Step :=
  doubleMatchSteps ++ [.inbound (.gameEnd { reason := "timeout", result := none })]
    ++ firingSteps ((List.replicate 50 [1, 2]).flatten)

end TuringTest

/-! # Theorems -/

namespace TuringTest

/-! ## Frame lemmas of the primitives -/

@[simp]
theorem clearInterval_st (h : Option Nat) (w : World) :
    (clearInterval h w).st = w.st := by
  cases h <;> rfl

@[simp]
theorem clearInterval_emitted (h : Option Nat) (w : World) :
    (clearInterval h w).emitted = w.emitted := by
  cases h <;> rfl

@[simp]
theorem clearInterval_listeners (h : Option Nat) (w : World) :
    (clearInterval h w).listeners = w.listeners := by
  cases h <;> rfl

@[simp]
theorem clearInterval_nextHandle (h : Option Nat) (w : World) :
    (clearInterval h w).nextHandle = w.nextHandle := by
  cases h <;> rfl

@[simp]
theorem clearInterval_none (w : World) : clearInterval none w = w := rfl

@[simp]
theorem clearInterval_some_intervals (i : Nat) (w : World) :
    (clearInterval (some i) w).intervals = w.intervals.filter (fun j => decide (j ≠ i)) :=
  rfl

/-! ## The handlers registered at mount read first-render variables -/

/-- The `gameEnd` handler registered at mount stops no interval, whatever
the state and the payload. -/
theorem deliver_gameEnd_intervals (d : GameEndData) (w : World) :
    (deliver (.gameEnd d) w).intervals = w.intervals
      ∧ (deliver (.gameEnd d) w).st.timerInterval = w.st.timerInterval := by
  unfold deliver
  split
  · by_cases h : d.reason = "guess" <;>
      simp [handle, onGameEnd, mountCaptured, initialState, jsTruthyNum, h]
  · exact ⟨rfl, rfl⟩

/-- The `gameComplete` handler registered at mount changes nothing, whatever
the state and the payload. -/
theorem deliver_gameComplete_eq (d : GameCompleteData) (w : World) :
    deliver (.gameComplete d) w = w := by
  unfold deliver
  split
  · simp [handle, onGameComplete, mountCaptured, initialState]
  · rfl

/-- C1: after `matchFound` and then `gameEnd` the chat has ended
(`chatEnded = true`) while the interval that `matchFound` started is still
running under its handle, and its next tick decrements `timeLeft` from 90 to
89; the `gameEnd` handler tests the `timerInterval` of the first render. -/
theorem gameEnd_leaves_interval_running :
    (run timeoutSteps mount).st.chatEnded = true
      ∧ (run timeoutSteps mount).st.timerInterval = some 1
      ∧ (run timeoutSteps mount).intervals = [1]
      ∧ (run timeoutSteps mount).st.timeLeft = 90
      ∧ (step (.tick 1) (run timeoutSteps mount)).st.timeLeft = 89 := by
  decide

/-- C2: a `watchingGame` notice followed by `matchFound` reaches a state with
`watchingGame = true` and a non-null `sessionId` together, and
`renderContent` shows that state as the watching screen, not the chat. -/
theorem watching_and_session_together :
    (run watchThenMatchSteps mount).st.watchingGame = true
      ∧ (run watchThenMatchSteps mount).st.sessionId = some "s2"
      ∧ renderContent (run watchThenMatchSteps mount).st
          = .watching [{ sender := "system", text := "Match found" }] := by
  decide

/-- C3: `watchingGame` before any `matchFound` sets the watching flag and
seeds the log with the notice, but the following `gameComplete` appends
nothing: the log still has the one seed entry and the whole world is as it
was before the event. -/
theorem gameComplete_appends_nothing :
    (run watchingSteps mount).st.watchingGame = true
      ∧ (run watchingSteps mount).st.messages
          = [{ sender := "system", text := "You are in the queue" }]
      ∧ (run watchThenCompleteSteps mount).st.messages
          = [{ sender := "system", text := "You are in the queue" }]
      ∧ run watchThenCompleteSteps mount = run watchingSteps mount := by
  decide

/-! ## Guessing -/

/-- The guess buttons are on screen exactly in the chat view (role chosen,
not watching, session present) of an ended chat with role `tester` and reason
`readyToGuess`. -/
theorem guessButtonsShown_iff (s : State) :
    guessButtonsShown s = true ↔
      jsTruthyStr s.role = true ∧ s.watchingGame = false ∧ jsTruthyStr s.sessionId = true
        ∧ s.chatEnded = true ∧ s.role = some "tester"
        ∧ s.gameReason = some "readyToGuess" := by
  unfold guessButtonsShown renderContent
  cases hr : jsTruthyStr s.role <;> cases hw : s.watchingGame <;>
    cases hs : jsTruthyStr s.sessionId <;> simp [renderChat, and_assoc]

/-- C4: the guess action is a no-op (same state, no `makeGuess` emitted)
unless the role is `tester`, the game-end reason is `readyToGuess` and a
session is active; when the guess buttons are on screen it emits one
`makeGuess` request with the current session id and changes nothing else. -/
theorem clickGuess_eligibility (g : String) (w : World) :
    (¬ (w.st.role = some "tester" ∧ w.st.gameReason = some "readyToGuess"
          ∧ w.st.sessionId ≠ none) → clickGuess g w = w)
      ∧ (guessButtonsShown w.st = true →
          clickGuess g w = { w with emitted := w.emitted ++ [.makeGuess w.st.sessionId g] }) := by
  constructor
  · intro h
    cases hb : guessButtonsShown w.st
    · simp [clickGuess, hb]
    · obtain ⟨_, _, hs, _, hrole, hreason⟩ := (guessButtonsShown_iff w.st).mp hb
      refine absurd ⟨hrole, hreason, ?_⟩ h
      intro hnone
      rw [hnone] at hs
      simp [jsTruthyStr] at hs
  · intro hb
    obtain ⟨_, _, hs, _, _, _⟩ := (guessButtonsShown_iff w.st).mp hb
    simp [clickGuess, hb, handleMakeGuess, hs, emit]

/-- C4 at concrete inputs: no effect for a tested person in a running chat;
one request for the tester who has been asked for the guess. -/
theorem clickGuess_eligibility_witness :
    (¬ ((run testedChatSteps mount).st.role = some "tester"
          ∧ (run testedChatSteps mount).st.gameReason = some "readyToGuess"
          ∧ (run testedChatSteps mount).st.sessionId ≠ none)
        ∧ clickGuess "human" (run testedChatSteps mount) = run testedChatSteps mount)
      ∧ (guessButtonsShown (run readyToGuessSteps mount).st = true
        ∧ clickGuess "AI" (run readyToGuessSteps mount)
            = { run readyToGuessSteps mount with
                emitted := (run readyToGuessSteps mount).emitted
                  ++ [.makeGuess (run readyToGuessSteps mount).st.sessionId "AI"] }) :=
  ⟨⟨by decide, (clickGuess_eligibility "human" (run testedChatSteps mount)).1 (by decide)⟩,
   ⟨by decide, (clickGuess_eligibility "AI" (run readyToGuessSteps mount)).2 (by decide)⟩⟩

/-! ## The game-end outcome -/

/-- The `gameEnd` handler stores the result only for the reason `guess`: for
any other reason `guessResult` keeps its previous value. -/
theorem deliver_gameEnd_guessResult (d : GameEndData) (w : World)
    (h : d.reason ≠ "guess") :
    (deliver (.gameEnd d) w).st.guessResult = w.st.guessResult := by
  unfold deliver
  split
  · simp [handle, onGameEnd, mountCaptured, initialState, jsTruthyNum, h]
  · rfl

/-- C5: after a match, `gameEnd` with reason `readyToGuess` and a result text
leaves `guessResult` null, so the `end-message` paragraph of the chat window
is rendered with no text instead of the result. -/
theorem readyToGuess_result_not_stored :
    (run readyToGuessSteps mount).st.gameReason = some "readyToGuess"
      ∧ (run readyToGuessSteps mount).st.guessResult = none
      ∧ renderContent (run readyToGuessSteps mount).st
          = .chat (renderChat (run readyToGuessSteps mount).st)
      ∧ (renderChat (run readyToGuessSteps mount).st).endMessage = some none := by
  decide

/-! ## New game -/

/-- C6, counterexample: after a game that ended by a guess, `handleNewGame`
leaves `gameReason` and `guessResult` set. -/
theorem handleNewGame_keeps_outcome :
    (handleNewGame "tester" (run guessedSteps mount)).st.gameReason = some "guess"
      ∧ (handleNewGame "tester" (run guessedSteps mount)).st.guessResult
          = some "You guessed incorrectly!"
      ∧ (handleNewGame "tester" (run guessedSteps mount)).st.gameReason ≠ none
      ∧ (handleNewGame "tester" (run guessedSteps mount)).st.guessResult ≠ none := by
  decide

/-- C6, amended: `handleNewGame` clears the session id, the message log, the
chat-ended flag and the watch-queue state from every state, and leaves
`gameReason` and `guessResult` as they were; the `matchFound` handler is what
sets those two to null. -/
theorem handleNewGame_clears (r : String) (w : World) (d : MatchFoundData) :
    (handleNewGame r w).st.sessionId = none
      ∧ (handleNewGame r w).st.messages = []
      ∧ (handleNewGame r w).st.chatEnded = false
      ∧ (handleNewGame r w).st.watchingGame = false
      ∧ (handleNewGame r w).st.watchingSessionId = none
      ∧ (handleNewGame r w).st.gameReason = w.st.gameReason
      ∧ (handleNewGame r w).st.guessResult = w.st.guessResult
      ∧ (onMatchFound d w).st.gameReason = none
      ∧ (onMatchFound d w).st.guessResult = none := by
  unfold handleNewGame emit onMatchFound
  split <;> simp

/-- C7: `handleNewGame r` applied twice gives the state (and the set of
running intervals) that applying it once gives, and that state has an empty
log, no session, `timeLeft = 90`, `chatEnded = false`, `watchingGame = false`. -/
theorem handleNewGame_idempotent (r : String) (w : World) :
    (handleNewGame r (handleNewGame r w)).st = (handleNewGame r w).st
      ∧ (handleNewGame r (handleNewGame r w)).intervals = (handleNewGame r w).intervals
      ∧ (handleNewGame r w).st.messages = []
      ∧ (handleNewGame r w).st.sessionId = none
      ∧ (handleNewGame r w).st.timeLeft = 90
      ∧ (handleNewGame r w).st.chatEnded = false
      ∧ (handleNewGame r w).st.watchingGame = false := by
  obtain ⟨st, ivs, nh, em, ls⟩ := w
  obtain ⟨ro, sid, ms, im, stt, ce, gr, gres, tl, ti, wg, wsid⟩ := st
  rcases ti with _ | n
  · simp [handleNewGame, emit, jsTruthyNum]
  · by_cases hn : n = 0
    · simp [handleNewGame, emit, jsTruthyNum, hn]
    · simp [handleNewGame, emit, jsTruthyNum, hn]

/-! ## Countdown intervals -/

/-- The `matchFound` handler stops no interval: every interval running
before the event runs after it, next to the new one. -/
theorem deliver_matchFound_intervals (d : MatchFoundData) (w : World)
    (h : Channel.matchFound ∈ w.listeners) :
    (deliver (.matchFound d) w).intervals = w.intervals ++ [w.nextHandle] := by
  simp [deliver, Inbound.channel, h, handle, onMatchFound]

/-- C8: a second `matchFound` during the countdown of the first leaves both
intervals running, and the next second decrements `timeLeft` twice, from 90
to 88. -/
theorem second_matchFound_keeps_first_interval :
    (run matchedSteps mount).intervals = [1]
      ∧ (run doubleMatchSteps mount).intervals = [1, 2]
      ∧ (run doubleMatchSteps mount).st.timeLeft = 90
      ∧ (elapseSecond (run doubleMatchSteps mount)).st.timeLeft = 88 := by
  decide

/-! ## The message log -/

/-- C9, counterexample: at mount there is no session, and a `newMessage`
event still changes the log. -/
theorem newMessage_without_session_appends :
    mount.st.sessionId = none
      ∧ (deliver (.newMessage { sender := "partner", text := "hello" }) mount).st.messages
          = [{ sender := "partner", text := "hello" }]
      ∧ (deliver (.newMessage { sender := "partner", text := "hello" }) mount).st.messages
          ≠ mount.st.messages := by
  decide

/-- C9, amended: in every state, with or without a session, the `newMessage`
handler appends the payload to the end of the log, and nothing else changes:
putting the old log back gives the old world. -/
theorem deliver_newMessage_appends (m : Message) (w : World)
    (h : Channel.newMessage ∈ w.listeners) :
    (deliver (.newMessage m) w).st.messages = w.st.messages ++ [m]
      ∧ { deliver (.newMessage m) w with
            st := { (deliver (.newMessage m) w).st with messages := w.st.messages } } = w := by
  simp [deliver, Inbound.channel, h, handle, onNewMessage]

/-- C9, amended, at mount, where no session is active. -/
theorem deliver_newMessage_appends_witness :
    Channel.newMessage ∈ mount.listeners
      ∧ (deliver (.newMessage { sender := "partner", text := "hello" }) mount).st.messages
          = mount.st.messages ++ [{ sender := "partner", text := "hello" }] :=
  ⟨by decide,
   (deliver_newMessage_appends { sender := "partner", text := "hello" } mount (by decide)).1⟩

/-! ## Sending -/

/-- The trimmed list is empty exactly when every character is white space. -/
theorem jsTrimChars_eq_nil_iff (cs : List Char) :
    jsTrimChars cs = [] ↔ ∀ c ∈ cs, jsIsWhiteSpace c = true := by
  unfold jsTrimChars
  rw [List.reverse_eq_nil_iff, List.dropWhile_eq_nil_iff]
  constructor
  · intro h
    have h2 : List.dropWhile jsIsWhiteSpace (List.dropWhile jsIsWhiteSpace cs) = [] :=
      List.dropWhile_eq_nil_iff.mpr (fun x hx => h x (List.mem_reverse.mpr hx))
    rw [List.dropWhile_idempotent] at h2
    exact List.dropWhile_eq_nil_iff.mp h2
  · intro h x hx
    exact h x ((List.dropWhile_suffix jsIsWhiteSpace).subset (List.mem_reverse.mp hx))

/-- The expression `inputMessage.trim()` is falsy exactly when the input is
blank: empty, or white space only. -/
theorem jsTrim_falsy_iff (s : String) :
    jsTruthyStr (some (jsTrim s)) = false ↔ s.data.all jsIsWhiteSpace = true := by
  have hmk : ∀ l : List Char, String.mk l = "" ↔ l = [] := by
    intro l
    constructor
    · intro h
      have := congrArg String.data h
      simpa using this
    · intro h
      subst h
      rfl
  simp [jsTruthyStr, jsTrim, hmk, jsTrimChars_eq_nil_iff]

/-- C10: `handleSendMessage` is a no-op (same state, nothing emitted) when
the input is blank, when no session exists (`sessionId` falsy), or when the
chat has ended; otherwise it appends `{sender: you, text: input}` to the end
of the log, emits exactly one `sendMessage` with the current session id and
the untrimmed input, clears the input buffer and changes nothing else. -/
theorem handleSendMessage_guard (w : World) :
    ((w.st.inputMessage.data.all jsIsWhiteSpace = true
        ∨ jsTruthyStr w.st.sessionId = false ∨ w.st.chatEnded = true) →
      handleSendMessage w = w)
    ∧ (¬ (w.st.inputMessage.data.all jsIsWhiteSpace = true
        ∨ jsTruthyStr w.st.sessionId = false ∨ w.st.chatEnded = true) →
      handleSendMessage w =
        { w with
          st := { w.st with
            messages := w.st.messages ++ [{ sender := "you", text := w.st.inputMessage }]
            inputMessage := "" }
          emitted := w.emitted ++ [.sendMessage w.st.sessionId w.st.inputMessage] }) := by
  have hb := jsTrim_falsy_iff w.st.inputMessage
  constructor
  · intro h
    unfold handleSendMessage
    rcases h with h | h | h
    · rw [hb.mpr h]; rfl
    · rw [h]; simp
    · rw [h]; simp
  · intro h
    push_neg at h
    obtain ⟨h1, h2, h3⟩ := h
    have h1t : jsTruthyStr (some (jsTrim w.st.inputMessage)) = true := by
      cases hj : jsTruthyStr (some (jsTrim w.st.inputMessage))
      · exact absurd (hb.mp hj) h1
      · rfl
    have h2t : jsTruthyStr w.st.sessionId = true := by simpa using h2
    have h3f : w.st.chatEnded = false := by simpa using h3
    simp [handleSendMessage, h1t, h2t, h3f, emit]

/-- C10 at concrete inputs: a blank input in a running chat is rejected, and
the input `hi` is appended, emitted for session `s1`, and cleared. -/
theorem handleSendMessage_guard_witness :
    ((run blankTypedSteps mount).st.inputMessage.data.all jsIsWhiteSpace = true
        ∧ handleSendMessage (run blankTypedSteps mount) = run blankTypedSteps mount)
      ∧ (¬ ((run typedSteps mount).st.inputMessage.data.all jsIsWhiteSpace = true
            ∨ jsTruthyStr (run typedSteps mount).st.sessionId = false
            ∨ (run typedSteps mount).st.chatEnded = true)
        ∧ handleSendMessage (run typedSteps mount) =
          { run typedSteps mount with
            st := { (run typedSteps mount).st with
              messages := (run typedSteps mount).st.messages ++ [{ sender := "you", text := "hi" }]
              inputMessage := "" }
            emitted := (run typedSteps mount).emitted ++ [.sendMessage (some "s1") "hi"] }) :=
  ⟨⟨by decide, (handleSendMessage_guard (run blankTypedSteps mount)).1 (Or.inl (by decide))⟩,
   ⟨by decide, (handleSendMessage_guard (run typedSteps mount)).2 (by decide)⟩⟩

/-! ## Match found -/

/-- C11: from every state, a `matchFound` event without `aiPersona` sets
`sessionId` and `role` to those of the payload, `chatEnded = false`,
`gameReason = null`, `guessResult = null`, the log to the one system entry
with the server message, `timeLeft = 90`, and starts an interval: its handle
is stored in `timerInterval`, it is among the running intervals, and its
first tick brings `timeLeft` to 89. -/
theorem deliver_matchFound_no_persona (d : MatchFoundData) (w : World)
    (hl : Channel.matchFound ∈ w.listeners) (hp : d.aiPersona = none) :
    (deliver (.matchFound d) w).st.sessionId = some d.sessionId
      ∧ (deliver (.matchFound d) w).st.role = some d.role
      ∧ (deliver (.matchFound d) w).st.chatEnded = false
      ∧ (deliver (.matchFound d) w).st.gameReason = none
      ∧ (deliver (.matchFound d) w).st.guessResult = none
      ∧ (deliver (.matchFound d) w).st.messages = [{ sender := "system", text := d.message }]
      ∧ (deliver (.matchFound d) w).st.timeLeft = 90
      ∧ (deliver (.matchFound d) w).st.timerInterval = some w.nextHandle
      ∧ w.nextHandle ∈ (deliver (.matchFound d) w).intervals
      ∧ (tick w.nextHandle (deliver (.matchFound d) w)).st.timeLeft = 89 := by
  simp [deliver, Inbound.channel, hl, handle, onMatchFound, hp, jsTruthyStr, tick,
    intervalCallback]

/-- C11 on Scenario A: the role `tester` is selected, `joinLobby` is emitted,
and the match without persona arrives. -/
theorem deliver_matchFound_no_persona_witness :
    (handleRoleSelection "tester" mount).emitted = [.joinLobby "tester"]
      ∧ Channel.matchFound ∈ (handleRoleSelection "tester" mount).listeners
      ∧ plainMatch.aiPersona = none
      ∧ (deliver (.matchFound plainMatch) (handleRoleSelection "tester" mount)).st.messages
          = [{ sender := "system", text := plainMatch.message }] :=
  ⟨by decide, by decide, rfl,
   (deliver_matchFound_no_persona plainMatch (handleRoleSelection "tester" mount)
      (by decide) rfl).2.2.2.2.2.1⟩

/-- C12: a `matchFound` event whose `aiPersona` is a non-empty string `p`
sets the log to exactly one system entry whose text is the persona
disclosure built from `p`; that text contains `p`, and the server message is
not used. -/
theorem deliver_matchFound_persona (d : MatchFoundData) (p : String) (w : World)
    (hl : Channel.matchFound ∈ w.listeners) (hp : d.aiPersona = some p) (hne : p ≠ "") :
    (deliver (.matchFound d) w).st.messages
        = [{ sender := "system",
             text := "You are matched with an AI. Your persona is: \"" ++ p ++ "\"" }]
      ∧ jsIncludes ("You are matched with an AI. Your persona is: \"" ++ p ++ "\"") p = true := by
  constructor
  · simp [deliver, Inbound.channel, hl, handle, onMatchFound, hp, jsTruthyStr, hne,
      personaText]
  · simp only [jsIncludes, decide_eq_true_eq, String.data_append]
    exact ⟨_, _, rfl⟩

/-- C12 on Scenario B: the persona `a grumpy pirate`. -/
theorem deliver_matchFound_persona_witness :
    Channel.matchFound ∈ mount.listeners
      ∧ pirateMatch.aiPersona = some "a grumpy pirate"
      ∧ (deliver (.matchFound pirateMatch) mount).st.messages
          = [{ sender := "system",
               text := "You are matched with an AI. Your persona is: \"a grumpy pirate\"" }]
      ∧ jsIncludes "You are matched with an AI. Your persona is: \"a grumpy pirate\""
          "grumpy pirate" = true :=
  ⟨by decide, rfl,
   (deliver_matchFound_persona pirateMatch "a grumpy pirate" mount (by decide) rfl
      (by decide)).1,
   by decide⟩

/-! ## The log is append-only -/

/-- No step changes the set of registered listeners. -/
theorem step_listeners (s : Step) (v : World) : (step s v).listeners = v.listeners := by
  rcases s with e | a | i
  · simp only [step, deliver]
    split
    · rcases e with m | d | m | d | d | d | m
      · rfl
      · rfl
      · rfl
      · by_cases h : d.reason = "guess" <;>
          simp [handle, onGameEnd, mountCaptured, initialState, jsTruthyNum, h]
      · rfl
      · simp [handle, onGameComplete, mountCaptured, initialState]
      · rfl
    · rfl
  · rcases a with r | r | x | _ | g
    · rfl
    · simp only [step, act, handleNewGame, emit]
      split <;> simp
    · rfl
    · simp only [step, act, handleSendMessage, emit]
      split <;> rfl
    · simp only [step, act, handleMakeGuess, emit]
      split <;> rfl
  · simp only [step, tick, intervalCallback]
    split
    · split
      · simp
      · rfl
    · rfl

/-- A step that does not touch the log appends what it delivers: its payload
for `newMessage`, nothing otherwise. -/
theorem step_messages (s : Step) (v : World) (hl : Channel.newMessage ∈ v.listeners)
    (hs : touchesLog s = false) :
    (step s v).st.messages = v.st.messages ++ deliveredMessages [s] := by
  rcases s with e | a | i
  · rcases e with m | d | m | d | d | d | m
    · simp only [step, deliver]
      split <;> simp [handle, onWaitingForPartner, deliveredMessages]
    · simp [touchesLog] at hs
    · simp [step, deliver, Inbound.channel, hl, handle, onNewMessage, deliveredMessages]
    · simp only [step, deliver]
      split
      · by_cases h : d.reason = "guess" <;>
          simp [handle, onGameEnd, mountCaptured, initialState, jsTruthyNum, h,
            deliveredMessages]
      · simp [deliveredMessages]
    · simp [touchesLog] at hs
    · simp only [step, deliver]
      split <;> simp [handle, onGameComplete, mountCaptured, initialState, deliveredMessages]
    · simp only [step, deliver]
      split <;> simp [handle, onError, deliveredMessages]
  · rcases a with r | r | x | _ | g
    · simp [step, act, handleRoleSelection, emit, deliveredMessages]
    · simp [touchesLog] at hs
    · simp [step, act, handleInputChange, deliveredMessages]
    · simp [touchesLog] at hs
    · simp only [step, act, handleMakeGuess, emit]
      split <;> simp [deliveredMessages]
  · simp only [step, tick, intervalCallback]
    split
    · split <;> simp [deliveredMessages]
    · simp [deliveredMessages]

/-- The messages delivered by a step followed by more steps. -/
theorem deliveredMessages_cons (s : Step) (rest : List Step) :
    deliveredMessages (s :: rest) = deliveredMessages [s] ++ deliveredMessages rest := by
  rcases s with e | a | i
  · rcases e with m | d | m | d | d | d | m <;> simp [deliveredMessages]
  · simp [deliveredMessages]
  · simp [deliveredMessages]

/-- A run of steps that do not touch the log appends the delivered messages,
in order. -/
theorem run_messages (steps : List Step) (v : World)
    (hl : Channel.newMessage ∈ v.listeners)
    (hs : ∀ s ∈ steps, touchesLog s = false) :
    (run steps v).st.messages = v.st.messages ++ deliveredMessages steps := by
  induction steps generalizing v with
  | nil => simp [run, deliveredMessages]
  | cons s rest ih =>
    have h1 := step_messages s v hl (hs s (List.mem_cons_self s rest))
    have h2 : Channel.newMessage ∈ (step s v).listeners := by
      rw [step_listeners]; exact hl
    have h3 := ih (step s v) h2 (fun t ht => hs t (List.mem_cons_of_mem s ht))
    have h4 : run (s :: rest) v = run rest (step s v) := rfl
    rw [h4, h3, h1, List.append_assoc, ← deliveredMessages_cons]

/-- C13, counterexample: after the match, a local send followed by one
`newMessage` event (`N = 1`, no `matchFound`, `watchingGame` or new-game in
between) leaves three entries in the log, not `N + 1 = 2`. -/
theorem local_send_adds_entry :
    sendThenMessageSteps.all (fun s => !resetsLog s) = true
      ∧ deliveredMessages sendThenMessageSteps = [{ sender := "partner", text := "hello" }]
      ∧ (run sendThenMessageSteps (run matchedSteps mount)).st.messages
          = [{ sender := "system", text := "Match found" }, { sender := "you", text := "hi" },
             { sender := "partner", text := "hello" }]
      ∧ (run sendThenMessageSteps (run matchedSteps mount)).st.messages.length
          ≠ (deliveredMessages sendThenMessageSteps).length + 1 := by
  decide

/-- C13, amended: after a `matchFound` event the log is the one seed entry,
and after any run of further steps without `matchFound`, `watchingGame`,
new-game and local send, in which `N` `newMessage` events arrive, it has
exactly `N + 1` entries: the seed followed by the delivered messages,
unchanged and in delivery order.  Each `newMessage`, and each local send,
keeps the log it finds as a prefix of the new log. -/
theorem log_append_only (d : MatchFoundData) (w : World) (steps : List Step)
    (hm : Channel.matchFound ∈ w.listeners) (hn : Channel.newMessage ∈ w.listeners)
    (hs : ∀ s ∈ steps, touchesLog s = false) :
    (deliver (.matchFound d) w).st.messages = [seedMessage d]
      ∧ (run steps (deliver (.matchFound d) w)).st.messages
          = seedMessage d :: deliveredMessages steps
      ∧ (run steps (deliver (.matchFound d) w)).st.messages.length
          = (deliveredMessages steps).length + 1
      ∧ (∀ (m : Message) (v : World), Channel.newMessage ∈ v.listeners →
          v.st.messages <+: (deliver (.newMessage m) v).st.messages)
      ∧ (∀ v : World, v.st.messages <+: (handleSendMessage v).st.messages) := by
  have hseed : (deliver (.matchFound d) w).st.messages = [seedMessage d] := by
    by_cases hp : jsTruthyStr d.aiPersona = true <;>
      simp [deliver, Inbound.channel, hm, handle, onMatchFound, seedMessage, hp]
  have hl : Channel.newMessage ∈ (deliver (.matchFound d) w).listeners := by
    have h := step_listeners (.inbound (.matchFound d)) w
    simp only [step] at h
    rw [h]; exact hn
  have hrun := run_messages steps (deliver (.matchFound d) w) hl hs
  rw [hseed] at hrun
  refine ⟨hseed, ?_, ?_, ?_, ?_⟩
  · simpa using hrun
  · rw [hrun]; simp
  · intro m v hv
    simp [deliver, Inbound.channel, hv, handle, onNewMessage]
  · intro v
    unfold handleSendMessage emit
    split
    · simp
    · exact List.prefix_refl _

/-- C13, amended, at a concrete input: three chat messages, two of them
equal, with other steps between them, after the match of Scenario A. -/
theorem log_append_only_witness :
    (Channel.matchFound ∈ mount.listeners ∧ Channel.newMessage ∈ mount.listeners
        ∧ ∀ s ∈ chatSteps, touchesLog s = false)
      ∧ (run chatSteps (deliver (.matchFound plainMatch) mount)).st.messages
        = seedMessage plainMatch ::
            [{ sender := "partner", text := "hello" }, { sender := "partner", text := "hello" },
             { sender := "partner", text := "bye" }] :=
  ⟨⟨by decide, by decide, by decide⟩,
   (log_append_only plainMatch mount chatSteps (by decide) (by decide) (by decide)).2.1⟩

/-! ## The countdown -/

/-- A run followed by one more step. -/
theorem run_snoc (steps : List Step) (s : Step) (v : World) :
    run (steps ++ [s]) v = step s (run steps v) := by
  simp [run, List.foldl_append]

/-- One more tick at the end of a row of ticks. -/
theorem run_tickSteps_succ (i t : Nat) (v : World) :
    run (tickSteps i (t + 1)) v = tick i (run (tickSteps i t) v) := by
  unfold tickSteps
  rw [List.replicate_succ', run_snoc]
  rfl

/-- While more than one second is left, a tick of a running interval takes
one second off and stops nothing. -/
theorem tick_running (i : Nat) (v : World) (hi : i ∈ v.intervals) (h : 1 < v.st.timeLeft) :
    (tick i v).st.timeLeft = v.st.timeLeft - 1 ∧ (tick i v).intervals = v.intervals := by
  have h2 : ¬ v.st.timeLeft ≤ 1 := not_le.mpr h
  simp [tick, hi, intervalCallback, h2]

/-- With at most one second left, a tick of a running interval sets the time
to 0 and stops that interval. -/
theorem tick_last (i : Nat) (v : World) (hi : i ∈ v.intervals) (h : v.st.timeLeft ≤ 1) :
    (tick i v).st.timeLeft = 0 ∧ i ∉ (tick i v).intervals := by
  simp [tick, hi, intervalCallback, h]

/-- During the first 89 ticks of the interval that `matchFound` started, the
time left is 90 minus the number of ticks and the intervals are untouched. -/
theorem countdown_before_end (d : MatchFoundData) (w : World) (t : Nat)
    (hm : Channel.matchFound ∈ w.listeners) (ht : t ≤ 89) :
    (run (tickSteps w.nextHandle t) (deliver (.matchFound d) w)).st.timeLeft = 90 - (t : Int)
      ∧ (run (tickSteps w.nextHandle t) (deliver (.matchFound d) w)).intervals
          = w.intervals ++ [w.nextHandle] := by
  induction t with
  | zero =>
    simp [tickSteps, run, deliver, Inbound.channel, hm, handle, onMatchFound]
  | succ n ih =>
    obtain ⟨h1, h2⟩ := ih (by omega)
    have hi : w.nextHandle ∈
        (run (tickSteps w.nextHandle n) (deliver (.matchFound d) w)).intervals := by
      rw [h2]; simp
    have hlt : 1 < (run (tickSteps w.nextHandle n) (deliver (.matchFound d) w)).st.timeLeft := by
      rw [h1]; omega
    obtain ⟨h3, h4⟩ := tick_running _ _ hi hlt
    rw [run_tickSteps_succ, h3, h4, h1, h2]
    constructor
    · push_cast; ring
    · rfl

/-- C14: for the countdown that a `matchFound` event starts at 90, after `t`
ticks of its interval, `t ≤ 90`, the time left is `90 - t`, which is not
negative; the interval is still running after fewer than 90 ticks and has
been cleared after the 90th, the tick that brings the time to 0. -/
theorem countdown_after_ticks (d : MatchFoundData) (w : World) (t : Nat)
    (hm : Channel.matchFound ∈ w.listeners) (ht : t ≤ 90) :
    (run (tickSteps w.nextHandle t) (deliver (.matchFound d) w)).st.timeLeft = 90 - (t : Int)
      ∧ 0 ≤ (run (tickSteps w.nextHandle t) (deliver (.matchFound d) w)).st.timeLeft
      ∧ (t < 90 →
          w.nextHandle ∈ (run (tickSteps w.nextHandle t) (deliver (.matchFound d) w)).intervals)
      ∧ (t = 90 →
          w.nextHandle ∉ (run (tickSteps w.nextHandle t) (deliver (.matchFound d) w)).intervals)
      := by
  by_cases h : t ≤ 89
  · obtain ⟨h1, h2⟩ := countdown_before_end d w t hm h
    refine ⟨h1, ?_, ?_, ?_⟩
    · rw [h1]; omega
    · intro _; rw [h2]; simp
    · intro h90; omega
  · have h90 : t = 89 + 1 := by omega
    subst h90
    obtain ⟨h1, h2⟩ := countdown_before_end d w 89 hm (le_refl 89)
    have hi : w.nextHandle ∈
        (run (tickSteps w.nextHandle 89) (deliver (.matchFound d) w)).intervals := by
      rw [h2]; simp
    have hle : (run (tickSteps w.nextHandle 89) (deliver (.matchFound d) w)).st.timeLeft ≤ 1 := by
      rw [h1]; norm_num
    obtain ⟨h3, h4⟩ := tick_last _ _ hi hle
    rw [run_tickSteps_succ]
    refine ⟨?_, ?_, ?_, ?_⟩
    · rw [h3]; norm_num
    · rw [h3]
    · intro hlt; omega
    · intro _; exact h4

/-- C14 at mount: 89 ticks leave one second and the interval running, the
90th tick leaves none and clears the interval. -/
theorem countdown_after_ticks_witness :
    (Channel.matchFound ∈ mount.listeners ∧ 89 ≤ 90 ∧ 90 ≤ 90)
      ∧ ((run (tickSteps mount.nextHandle 89) (deliver (.matchFound plainMatch) mount)).st.timeLeft
            = 90 - ((89 : Nat) : Int)
          ∧ (89 < 90 → mount.nextHandle ∈
              (run (tickSteps mount.nextHandle 89)
                (deliver (.matchFound plainMatch) mount)).intervals))
      ∧ ((run (tickSteps mount.nextHandle 90) (deliver (.matchFound plainMatch) mount)).st.timeLeft
            = 90 - ((90 : Nat) : Int)
          ∧ (90 = 90 → mount.nextHandle ∉
              (run (tickSteps mount.nextHandle 90)
                (deliver (.matchFound plainMatch) mount)).intervals)) :=
  ⟨⟨by decide, by decide, by decide⟩,
   ⟨(countdown_after_ticks plainMatch mount 89 (by decide) (by decide)).1,
    (countdown_after_ticks plainMatch mount 89 (by decide) (by decide)).2.2.1⟩,
   ⟨(countdown_after_ticks plainMatch mount 90 (by decide) (by decide)).1,
    (countdown_after_ticks plainMatch mount 90 (by decide) (by decide)).2.2.2⟩⟩

/-! ## The outcome of a guess and the controls of the ended chat -/

/-- The handler of `gameEnd` keeps the three cells that select the screen. -/
theorem deliver_gameEnd_view_cells (d : GameEndData) (w : World) :
    (deliver (.gameEnd d) w).st.role = w.st.role
      ∧ (deliver (.gameEnd d) w).st.sessionId = w.st.sessionId
      ∧ (deliver (.gameEnd d) w).st.watchingGame = w.st.watchingGame := by
  unfold deliver
  split
  · by_cases h : d.reason = "guess" <;>
      simp [handle, onGameEnd, mountCaptured, initialState, jsTruthyNum, h]
  · exact ⟨rfl, rfl, rfl⟩

/-- The chat window is what `renderContent` shows when a role is chosen, the
client is not watching and a session is present. -/
theorem renderContent_chat (s : State) (hr : jsTruthyStr s.role = true)
    (hw : s.watchingGame = false) (hs : jsTruthyStr s.sessionId = true) :
    renderContent s = .chat (renderChat s) := by
  simp [renderContent, hr, hw, hs]

/-- C15: after `gameEnd` with reason `guess` and result `r` the chat has
ended with `guessResult = r`; the result paragraph shows `r` and has the
class `incorrect` exactly when `r` is a string that contains `incorrectly`
(never for a null result); the new-game buttons are shown whatever the role;
and in a chat session the screen is the chat window. -/
theorem deliver_gameEnd_guess (d : GameEndData) (w : World)
    (hl : Channel.gameEnd ∈ w.listeners) (hr : d.reason = "guess") :
    (deliver (.gameEnd d) w).st.chatEnded = true
      ∧ (deliver (.gameEnd d) w).st.gameReason = some "guess"
      ∧ (deliver (.gameEnd d) w).st.guessResult = d.result
      ∧ (∃ flagged : Bool,
          (renderChat (deliver (.gameEnd d) w).st).resultMessage = some (d.result, flagged)
            ∧ (flagged = true ↔ ∃ r, d.result = some r ∧ "incorrectly".data <:+: r.data))
      ∧ (renderChat (deliver (.gameEnd d) w).st).replayButtons = true
      ∧ (jsTruthyStr w.st.role = true → w.st.watchingGame = false →
          jsTruthyStr w.st.sessionId = true →
          renderContent (deliver (.gameEnd d) w).st
            = .chat (renderChat (deliver (.gameEnd d) w).st)) := by
  have hst : (deliver (.gameEnd d) w).st.chatEnded = true
      ∧ (deliver (.gameEnd d) w).st.gameReason = some "guess"
      ∧ (deliver (.gameEnd d) w).st.guessResult = d.result := by
    simp [deliver, Inbound.channel, hl, handle, onGameEnd, mountCaptured, initialState,
      jsTruthyNum, hr]
  obtain ⟨h1, h2, h3⟩ := hst
  refine ⟨h1, h2, h3, ?_, ?_, ?_⟩
  · refine ⟨jsTruthyStr d.result && jsIncludes (d.result.getD "") "incorrectly", ?_, ?_⟩
    · simp [renderChat, h1, h2, h3]
    · rcases hres : d.result with _ | r
      · simp [jsTruthyStr]
      · have hne : "incorrectly".data <:+: r.data → r ≠ "" := by
          intro hin hr0
          subst hr0
          have : "incorrectly".data = [] := List.infix_nil.mp hin
          exact absurd this (by decide)
        simp only [jsTruthyStr, jsIncludes, Option.getD_some, Bool.and_eq_true,
          decide_eq_true_eq, Option.some.injEq, exists_eq_left']
        exact ⟨fun h => h.2, fun h => ⟨hne h, h⟩⟩
  · simp [renderChat, h1, h2]
  · intro hrole hwatch hsid
    obtain ⟨e1, e2, e3⟩ := deliver_gameEnd_view_cells d w
    exact renderContent_chat _ (by rw [e1]; exact hrole) (by rw [e3]; exact hwatch)
      (by rw [e2]; exact hsid)

/-- C15 on Scenario E: the result `You guessed incorrectly!` after the match
of Scenario A. -/
theorem deliver_gameEnd_guess_witness :
    (Channel.gameEnd ∈ (run matchedSteps mount).listeners ∧ incorrectGuessEnd.reason = "guess")
      ∧ (deliver (.gameEnd incorrectGuessEnd) (run matchedSteps mount)).st.guessResult
          = incorrectGuessEnd.result
      ∧ (renderChat (deliver (.gameEnd incorrectGuessEnd) (run matchedSteps mount)).st).replayButtons
          = true
      ∧ (renderChat (deliver (.gameEnd incorrectGuessEnd) (run matchedSteps mount)).st).resultMessage
          = some (some "You guessed incorrectly!", true) :=
  ⟨⟨by decide, rfl⟩,
   (deliver_gameEnd_guess incorrectGuessEnd (run matchedSteps mount) (by decide) rfl).2.2.1,
   (deliver_gameEnd_guess incorrectGuessEnd (run matchedSteps mount) (by decide) rfl).2.2.2.2.1,
   by decide⟩

/-- C16: in the chat view of an ended chat, reason `timeout` shows the
new-game buttons whatever the role and no guess buttons; reason
`readyToGuess` shows the guess buttons exactly when the role is `tester` and
no new-game buttons; reason `guess` shows the new-game buttons whatever the
role and no guess buttons. -/
theorem controls_by_reason (s : State) (hr : jsTruthyStr s.role = true)
    (hw : s.watchingGame = false) (hs : jsTruthyStr s.sessionId = true)
    (he : s.chatEnded = true) :
    renderContent s = .chat (renderChat s)
      ∧ (s.gameReason = some "timeout" →
          (renderChat s).replayButtons = true ∧ (renderChat s).guessButtons = false)
      ∧ (s.gameReason = some "readyToGuess" →
          ((renderChat s).guessButtons = true ↔ s.role = some "tester")
            ∧ (renderChat s).replayButtons = false)
      ∧ (s.gameReason = some "guess" →
          (renderChat s).replayButtons = true ∧ (renderChat s).guessButtons = false) := by
  refine ⟨renderContent_chat s hr hw hs, ?_, ?_, ?_⟩
  · intro h
    simp [renderChat, he, h]
  · intro h
    simp [renderChat, he, h]
  · intro h
    simp [renderChat, he, h]

/-- C16 on Scenario D (timeout for a tester) and on the request for the
guess, where the tester gets the guess buttons. -/
theorem controls_by_reason_witness :
    ((run timeoutSteps mount).st.gameReason = some "timeout"
        ∧ (renderChat (run timeoutSteps mount).st).replayButtons = true
        ∧ (renderChat (run timeoutSteps mount).st).guessButtons = false)
      ∧ ((run readyToGuessSteps mount).st.gameReason = some "readyToGuess"
        ∧ (run readyToGuessSteps mount).st.role = some "tester"
        ∧ (renderChat (run readyToGuessSteps mount).st).guessButtons = true
        ∧ (renderChat (run readyToGuessSteps mount).st).replayButtons = false) :=
  ⟨⟨by decide,
    ((controls_by_reason (run timeoutSteps mount).st (by decide) (by decide) (by decide)
      (by decide)).2.1 (by decide)).1,
    ((controls_by_reason (run timeoutSteps mount).st (by decide) (by decide) (by decide)
      (by decide)).2.1 (by decide)).2⟩,
   ⟨by decide, by decide,
    ((controls_by_reason (run readyToGuessSteps mount).st (by decide) (by decide) (by decide)
      (by decide)).2.2.1 (by decide)).1.mpr (by decide),
    ((controls_by_reason (run readyToGuessSteps mount).st (by decide) (by decide) (by decide)
      (by decide)).2.2.1 (by decide)).2⟩⟩

/-! ## The guess request -/

/-- C17, counterexample: with the non-null session id `""` the handler
`handleMakeGuess` emits nothing; the guard `if (sessionId)` is falsy there. -/
theorem handleMakeGuess_empty_session_id :
    (run emptyIdSteps mount).st.sessionId = some ""
      ∧ (run emptyIdSteps mount).st.sessionId ≠ none
      ∧ handleMakeGuess "human" (run emptyIdSteps mount) = run emptyIdSteps mount
      ∧ (handleMakeGuess "human" (run emptyIdSteps mount)).emitted = [.joinLobby "tester"] := by
  decide

/-- C17, amended: with a truthy `sessionId` (non-null and non-empty, which
is what the guard `if (sessionId)` accepts) `handleMakeGuess g` emits exactly
one `makeGuess` request with the current session id and `g`, for every `g`,
and changes nothing else; it never changes the state; with a falsy
`sessionId` (null or empty) it emits nothing. -/
theorem handleMakeGuess_translation (g : String) (w : World) :
    (∀ sid : String, w.st.sessionId = some sid → sid ≠ "" →
        handleMakeGuess g w = { w with emitted := w.emitted ++ [.makeGuess (some sid) g] })
      ∧ (handleMakeGuess g w).st = w.st
      ∧ (jsTruthyStr w.st.sessionId = false → (handleMakeGuess g w).emitted = w.emitted) := by
  refine ⟨?_, ?_, ?_⟩
  · intro sid hsid hne
    simp [handleMakeGuess, hsid, jsTruthyStr, hne, emit]
  · unfold handleMakeGuess emit
    split <;> rfl
  · intro h
    simp [handleMakeGuess, h]

/-- C17, amended, at concrete inputs: the guess `AI` in session `s1`, and the
guess `human` at mount, where there is no session. -/
theorem handleMakeGuess_translation_witness :
    ((run readyToGuessSteps mount).st.sessionId = some "s1"
        ∧ handleMakeGuess "AI" (run readyToGuessSteps mount)
            = { run readyToGuessSteps mount with
                emitted := (run readyToGuessSteps mount).emitted
                  ++ [.makeGuess (some "s1") "AI"] })
      ∧ (jsTruthyStr mount.st.sessionId = false
        ∧ (handleMakeGuess "human" mount).emitted = mount.emitted) :=
  ⟨⟨by decide,
    (handleMakeGuess_translation "AI" (run readyToGuessSteps mount)).1 "s1" (by decide)
      (by decide)⟩,
   ⟨by decide, (handleMakeGuess_translation "human" mount).2.2 (by decide)⟩⟩

/-! ## Error notices -/

/-- C18: an `error` event with message `m` sets the status text to `m` and
leaves every other cell of the state, the running intervals, the listeners
and the emitted requests as they were. -/
theorem deliver_error_frame (m : String) (w : World) (hl : Channel.error ∈ w.listeners) :
    (deliver (.error m) w).st.status = m
      ∧ (deliver (.error m) w).st.role = w.st.role
      ∧ (deliver (.error m) w).st.sessionId = w.st.sessionId
      ∧ (deliver (.error m) w).st.messages = w.st.messages
      ∧ (deliver (.error m) w).st.chatEnded = w.st.chatEnded
      ∧ (deliver (.error m) w).st.gameReason = w.st.gameReason
      ∧ (deliver (.error m) w).st.guessResult = w.st.guessResult
      ∧ (deliver (.error m) w).st.timeLeft = w.st.timeLeft
      ∧ (deliver (.error m) w).st.timerInterval = w.st.timerInterval
      ∧ (deliver (.error m) w).st.watchingGame = w.st.watchingGame
      ∧ (deliver (.error m) w).st.watchingSessionId = w.st.watchingSessionId
      ∧ (deliver (.error m) w).st.inputMessage = w.st.inputMessage
      ∧ (deliver (.error m) w).emitted = w.emitted
      ∧ (deliver (.error m) w).intervals = w.intervals
      ∧ (deliver (.error m) w).listeners = w.listeners
      ∧ (deliver (.error m) w).nextHandle = w.nextHandle := by
  simp [deliver, Inbound.channel, hl, handle, onError]

/-- C18 in the running chat of Scenario A. -/
theorem deliver_error_frame_witness :
    Channel.error ∈ (run matchedSteps mount).listeners
      ∧ (deliver (.error "Partner disconnected") (run matchedSteps mount)).st.status
          = "Partner disconnected"
      ∧ (deliver (.error "Partner disconnected") (run matchedSteps mount)).st.sessionId
          = (run matchedSteps mount).st.sessionId :=
  ⟨by decide,
   (deliver_error_frame "Partner disconnected" (run matchedSteps mount) (by decide)).1,
   (deliver_error_frame "Partner disconnected" (run matchedSteps mount) (by decide)).2.2.1⟩

/-! ## Teardown -/

/-- The call `socket.off` touches only the listeners. -/
theorem socketOff_frame (c : Channel) (w : World) :
    (socketOff c w).intervals = w.intervals ∧ (socketOff c w).st = w.st
      ∧ (socketOff c w).emitted = w.emitted :=
  ⟨rfl, rfl, rfl⟩

/-- The cleanup of the effect stops no interval and changes no state. -/
theorem cleanup_intervals (w : World) :
    (cleanup w).intervals = w.intervals ∧ (cleanup w).st = w.st := by
  simp [cleanup, socketOff]

/-- The cleanup of the effect leaves no channel with a listener. -/
theorem cleanup_listeners (w : World) (c : Channel) : c ∉ (cleanup w).listeners := by
  cases c <;> simp [cleanup, socketOff, List.mem_filter]

/-- C19: teardown during the countdown of Scenario A removes the handlers of
all seven channels but stops no timer: interval 1 is still running after the
cleanup and its next tick takes `timeLeft` from 90 to 89. -/
theorem cleanup_leaves_interval_running :
    teardownWorld.listeners = []
      ∧ teardownWorld.st.timerInterval = some 1
      ∧ teardownWorld.intervals = [1]
      ∧ teardownWorld.st.timeLeft = 90
      ∧ (tick 1 teardownWorld).st.timeLeft = 89 := by
  decide

/-! ## Bounds of the time left -/

/-- Every step keeps the time left between 0 and 90. -/
theorem step_timeLeft_range (s : Step) (v : World)
    (h : 0 ≤ v.st.timeLeft ∧ v.st.timeLeft ≤ 90) :
    0 ≤ (step s v).st.timeLeft ∧ (step s v).st.timeLeft ≤ 90 := by
  rcases s with e | a | i
  · simp only [step, deliver]
    split
    · rcases e with m | d | m | d | d | d | m
      · exact h
      · simp [handle, onMatchFound]
      · exact h
      · by_cases hg : d.reason = "guess" <;>
          simpa [handle, onGameEnd, mountCaptured, initialState, jsTruthyNum, hg] using h
      · exact h
      · simpa [handle, onGameComplete, mountCaptured, initialState] using h
      · exact h
    · exact h
  · rcases a with r | r | x | _ | g
    · exact h
    · simp [step, act, handleNewGame, emit]
    · exact h
    · simp only [step, act, handleSendMessage, emit]
      split
      · exact h
      · exact h
    · simp only [step, act, handleMakeGuess, emit]
      split
      · exact h
      · exact h
  · simp only [step, tick, intervalCallback]
    split
    · split
      · simp
      · rename_i hgt
        simp only
        omega
    · exact h

/-- A run keeps the time left between 0 and 90. -/
theorem run_timeLeft_range (steps : List Step) (v : World)
    (h : 0 ≤ v.st.timeLeft ∧ v.st.timeLeft ≤ 90) :
    0 ≤ (run steps v).st.timeLeft ∧ (run steps v).st.timeLeft ≤ 90 := by
  induction steps generalizing v with
  | nil => exact h
  | cons s rest ih => exact ih (step s v) (step_timeLeft_range s v h)

/-- At 0 a tick of any interval leaves the time left at 0. -/
theorem tick_at_zero (i : Nat) (v : World) (h : v.st.timeLeft = 0) :
    (tick i v).st.timeLeft = 0 := by
  simp only [tick, intervalCallback]
  split
  · split
    · simp
    · rename_i hgt
      omega
  · exact h

/-- At 0 any number of ticks leaves the time left at 0. -/
theorem firing_at_zero (handles : List Nat) (v : World) (h : v.st.timeLeft = 0) :
    (run (firingSteps handles) v).st.timeLeft = 0 := by
  induction handles generalizing v with
  | nil => exact h
  | cons i rest ih => exact ih (tick i v) (tick_at_zero i v h)

/-- C20: in every state that a run of inbound events, user actions and
interval ticks reaches from the mounted component, whatever intervals are
running, `timeLeft` is an integer between 0 and 90, and once it is 0 any
further ticks, of any intervals, leave it at 0. -/
theorem timeLeft_bounds (w : World) (h : Reachable w) :
    0 ≤ w.st.timeLeft ∧ w.st.timeLeft ≤ 90
      ∧ (w.st.timeLeft = 0 →
          ∀ handles : List Nat, (run (firingSteps handles) w).st.timeLeft = 0) := by
  obtain ⟨steps, rfl⟩ := h
  have hr := run_timeLeft_range steps mount (by decide)
  exact ⟨hr.1, hr.2, fun h0 handles => firing_at_zero handles _ h0⟩

set_option maxRecDepth 20000

/-- C20 on a run with two matches in a row, the end of the game and 50
seconds of both intervals: the time left has reached 0 and stays there. -/
theorem timeLeft_bounds_witness :
    Reachable (run leakySteps mount)
      ∧ (run leakySteps mount).st.timeLeft = 0
      ∧ (0 ≤ (run leakySteps mount).st.timeLeft ∧ (run leakySteps mount).st.timeLeft ≤ 90)
      ∧ (run (firingSteps [1, 2, 1]) (run leakySteps mount)).st.timeLeft = 0 :=
  ⟨⟨leakySteps, rfl⟩, by decide,
   ⟨(timeLeft_bounds (run leakySteps mount) ⟨leakySteps, rfl⟩).1,
    (timeLeft_bounds (run leakySteps mount) ⟨leakySteps, rfl⟩).2.1⟩,
   (timeLeft_bounds (run leakySteps mount) ⟨leakySteps, rfl⟩).2.2 (by decide) [1, 2, 1]⟩

end TuringTest
